import Mathlib

/-!
# Verification of the SharePoint extraction / indexing batch pipeline

Shallow embedding of the two batch jobs
`SharepointDataExtractor.py` (stage 1: fetch one day of records from the
remote document API and store them as one JSON object in object storage)
and `S3toExHistoricalIndexer.py` (stage 2: read stored records, enrich
each with a generated summary and two embedding vectors, and index the
result into the search engine).

External services (HTTP responses of the document API, the inference
service, the storage put outcome, the search engine) are modelled as
explicit oracle parameters; Python exceptions are modelled with
`Except PyError`.  Every definition is translated from the source file
it names in its doc comment.
-/

/-- Python exceptions raised by the two scripts, one constructor per raise
site. -/
inductive PyError where
  /-- `NameError: name '<n>' is not defined` (unbound module-level name). -/
  | nameError (n : String) : PyError
  /-- `ValueError` raised by the required-environment checks and the date
  parser (`SharepointDataExtractor.py` lines 97 and 111). -/
  | valueError (msg : String) : PyError
  /-- `TypeError: 'exc_info' is an invalid keyword argument for print()`
  (raised inside an `except` handler that calls `print(..., exc_info=True)`,
  `SharepointDataExtractor.py` line 85). -/
  | typeError (msg : String) : PyError
  /-- `Exception("SharePoint認証に繰り返し失敗しました...")`
  (`SharepointDataExtractor.py` line 140). -/
  | authError : PyError
  /-- `requests.exceptions.HTTPError` from `response.raise_for_status()`
  re-raised after the retry loop (`SharepointDataExtractor.py` lines 143/150),
  carrying the response status code and reason. -/
  | httpError (code : Nat) (reason : String) : PyError
  /-- a connection-level `requests.exceptions.RequestException` re-raised
  after the retry loop (`SharepointDataExtractor.py` line 150). -/
  | requestError : PyError
  /-- `Exception("SharePointからのデータ取得に失敗しました...")` raised when the
  retry loop ends without any response (`SharepointDataExtractor.py` line 153). -/
  | fetchFailed : PyError
  /-- `Exception("S3へのレポートリストの保存に失敗したわ。")`
  (`SharepointDataExtractor.py` line 173). -/
  | storeError : PyError
deriving DecidableEq, Repr

/-! ## Python string helpers

Character-level models of the Python `str` operations the scripts use:
`str.splitlines`, `str.strip`, `" ".join`, and the whitespace class shared
by `str.strip` and the regex `\s`. -/

/-- The Unicode whitespace class of Python's `str.strip()` / `re.\s`. -/
def isPySpace (c : Char) : Bool :=
  c = ' ' || c = '\t' || c = '\n' || c = '\r' || c = '\x0b' || c = '\x0c' ||
  c = '\x1c' || c = '\x1d' || c = '\x1e' || c = '\x85' || c = ' ' ||
  c = ' ' || (' ' ≤ c && c ≤ ' ') || c = ' ' ||
  c = ' ' || c = ' ' || c = ' ' || c = '　'

/-- The line-boundary characters of Python's `str.splitlines()`. -/
def isLineBoundary (c : Char) : Bool :=
  c = '\n' || c = '\r' || c = '\x0b' || c = '\x0c' || c = '\x1c' ||
  c = '\x1d' || c = '\x1e' || c = '\x85' || c = ' ' || c = ' '

/-- Worker of `pySplitlines`: accumulates the current line (reversed) and
emits it at each boundary; a boundary at the very end of the input does not
produce a trailing empty line, and `"\r\n"` counts as a single boundary. -/
def splitLinesGo (acc : List Char) : List Char → List (List Char)
  | [] => [acc.reverse]
  | '\r' :: '\n' :: t =>
    acc.reverse :: (match t with
      | [] => []
      | t => splitLinesGo [] t)
  | c :: t =>
    if isLineBoundary c then
      acc.reverse :: (match t with
        | [] => []
        | t => splitLinesGo [] t)
    else splitLinesGo (c :: acc) t

/-- Python `str.splitlines()` on a character list (`"".splitlines() == []`). -/
def pySplitlines (s : List Char) : List (List Char) :=
  match s with
  | [] => []
  | s => splitLinesGo [] s

/-- Python `str.strip()` on a character list. -/
def pyStripL (s : List Char) : List Char :=
  ((s.dropWhile isPySpace).reverse.dropWhile isPySpace).reverse

/-- Python `str.strip()` on a string. -/
def pyStrip (s : String) : String := String.mk (pyStripL s.data)

/-- Python `" ".join(...)` on character lists. -/
def joinSp : List (List Char) → List Char
  | [] => []
  | [l] => l
  | l :: l' :: ls => l ++ ' ' :: joinSp (l' :: ls)

/-- The characters replaced by a plain space at
`S3toExHistoricalIndexer.py` line 87: zero-width space, ideographic space,
non-breaking space. -/
def specialChar (c : Char) : Bool :=
  c = '​' || c = '　' || c = ' '

/-- One character of the `.replace('​',' ').replace('　',' ')
.replace('\xa0',' ')` chain of `S3toExHistoricalIndexer.py` line 87. -/
def normChar (c : Char) : Char := if specialChar c then ' ' else c

/-- The character-list core of `extract_text_from_html` (lines 87-89):
replace the three special characters with spaces, split into lines, strip
each line, drop empty lines, join with single spaces. -/
def extractTextL (s : List Char) : List Char :=
  joinSp (((pySplitlines (s.map normChar)).map pyStripL).filter (fun l => !l.isEmpty))

/-- `extract_text_from_html` (`S3toExHistoricalIndexer.py` lines 81-89).
`BeautifulSoup(html,'html.parser').get_text()` is modelled as the identity,
which is its value on markup-free input (no tags, no entities, no
script/style content); the claims about this function are stated under
that `markupFree` restriction.  The rest is the literal translation
`extractTextL`. -/
def extract_text_from_html (html : String) : String :=
  String.mk (extractTextL html.data)

/-- A string with no HTML markup: no tags and no character entities, so
that `BeautifulSoup.get_text` returns it unchanged. -/
def markupFree (s : String) : Bool :=
  s.data.all (fun c => c ≠ '<' && c ≠ '>' && c ≠ '&')

/-! ## The section splitter `extract_sections`

`S3toExHistoricalIndexer.py` lines 91-113.  The three patterns are

* `概要：\s*(.*?)(?:<br/>|\n|$)詳細：`
* `詳細：\s*(.*?)(?:<br/>|\n|$)所感：`
* `所感：\s*(.*)`

searched with `re.search(..., re.DOTALL)`.  The model below implements
exactly these pattern shapes over character lists with Python's
semantics: leftmost match, greedy `\s*` (backtracking from the longest
whitespace run down), lazy `(.*?)` (shortest first, `.` matching
newlines under DOTALL), and `$` matching at end of input or just before
a final newline. -/

/-- The literal `<br/>`. -/
def litBR : List Char := ['<', 'b', 'r', '/', '>']

/-- The `$` alternative of `(?:<br/>|\n|$)` followed by the literal `next`:
`$` (without MULTILINE) matches at the end of the input or just before a
trailing newline, and is zero-width, so `next` must match from that same
position. -/
def dollarThenLit (next rest : List Char) : Bool :=
  match rest with
  | [] => List.isPrefixOf next []
  | ['\n'] => List.isPrefixOf next ['\n']
  | _ => false

/-- Does `(?:<br/>|\n|$)` followed by the literal `next` match at this
position? -/
def sepNextAt (next rest : List Char) : Bool :=
  List.isPrefixOf (litBR ++ next) rest ||
  (match rest with
   | '\n' :: t => List.isPrefixOf next t
   | _ => false) ||
  dollarThenLit next rest

/-- The lazy group `(.*?)` before `(?:<br/>|\n|$)next`: try the shortest
capture first, extending one character at a time (DOTALL: any character may
be captured).  Returns the captured characters of the first success. -/
def lazyCapture (next : List Char) : List Char → Option (List Char)
  | [] => if sepNextAt next [] then some [] else none
  | c :: t =>
    if sepNextAt next (c :: t) then some []
    else (lazyCapture next t).map (fun cap => c :: cap)

/-- Length of the maximal leading whitespace run (the candidates of the
greedy `\s*`). -/
def wsCount : List Char → Nat
  | [] => 0
  | c :: t => if isPySpace c then wsCount t + 1 else 0

/-- Greedy `\s*` with backtracking: try consuming `w` whitespace characters
for `w` from the maximal run length down to `0`, running the lazy capture
after each. -/
def tryFromW (next s : List Char) : Nat → Option (List Char)
  | 0 => lazyCapture next s
  | w + 1 =>
    match lazyCapture next (s.drop (w + 1)) with
    | some cap => some cap
    | none => tryFromW next s w

/-- `re.search` of `label\s*(.*?)(?:<br/>|\n|$)next` under DOTALL: leftmost
starting position wins; at each occurrence of `label` the whole
`\s*`/lazy-capture backtracking is explored before moving right. -/
def searchCapture (label next : List Char) : List Char → Option (List Char)
  | [] => none
  | c :: t =>
    if List.isPrefixOf label (c :: t) then
      match tryFromW next ((c :: t).drop label.length)
              (wsCount ((c :: t).drop label.length)) with
      | some cap => some cap
      | none => searchCapture label next t
    else searchCapture label next t

/-- `re.search` of `label\s*(.*)` under DOTALL: at the leftmost occurrence
of `label`, the greedy `\s*` takes the whole whitespace run and the greedy
`(.*)` captures everything after it. -/
def searchTail (label : List Char) : List Char → Option (List Char)
  | [] => none
  | c :: t =>
    if List.isPrefixOf label (c :: t) then
      some (((c :: t).drop label.length).drop (wsCount ((c :: t).drop label.length)))
    else searchTail label t

/-- The label `概要：` (summary). -/
def labelG : List Char := "概要：".data
/-- The label `詳細：` (detail). -/
def labelD : List Char := "詳細：".data
/-- The label `所感：` (impression). -/
def labelS : List Char := "所感：".data

/-- The result dictionary of `extract_sections`. -/
structure Sections where
  «概要» : String
  «詳細» : String
  «所感» : String
deriving DecidableEq, Repr

/-- `extract_sections` (`S3toExHistoricalIndexer.py` lines 91-113): each
section is the stripped first capture of its pattern, or the sentinel
`"N/A"` when the pattern does not match. -/
def extract_sections (body_text_html : String) : Sections :=
  let s := body_text_html.data
  { «概要» := match searchCapture labelG labelD s with
              | some cap => String.mk (pyStripL cap)
              | none => "N/A"
    «詳細» := match searchCapture labelD labelS s with
              | some cap => String.mk (pyStripL cap)
              | none => "N/A"
    «所感» := match searchTail labelS s with
              | some cap => String.mk (pyStripL cap)
              | none => "N/A" }

/-! ## Stage 1: `SharepointDataExtractor.py`

The module-level environment, the paginated fetch loop with its retry
logic (lines 123-157), the raw store writer (lines 75-86), the main
processing function (lines 90-180), and the `__main__` exit-code logic
(lines 183-204).  HTTP responses are an oracle `script : Nat → HttpOutcome`
indexed by the number of requests made so far, and the storage put outcome
is an oracle boolean. -/

/-- The module-level imports of `SharepointDataExtractor.py` (lines 1-10).
`urllib` is not among them: `urllib3` binds only the name `urllib3`. -/
def moduleImports : List String :=
  ["requests", "requests_ntlm", "bs4", "re", "datetime", "json", "os",
   "traceback", "urllib3", "boto3"]

/-- The environment variables read by `SharepointDataExtractor.py`
(lines 14-33 and 185).  `none` models an unset variable. -/
structure ExtractorEnv where
  DOMAIN_PASSWORD : Option String
  SITE_URL : Option String
  DOMAIN : Option String
  LOGINNAME : Option String
  LOGINPASSWORD : Option String
  BUCKET_NAME : Option String
  /-- `S3_OUTPUT_PREFIX` of the source; the trailing token of the source
  name is spelled `PFX` here. -/
  S3_OUTPUT_PFX : Option String
  TARGET_DATE : Option String
deriving DecidableEq, Repr

/-- Python truthiness of `os.environ.get(...)`: set and non-empty. -/
def truthy (o : Option String) : Bool := !(o.getD "").isEmpty

/-- The required-environment check of lines 94-97 in source order; returns
the first missing variable name. -/
def missingRequiredEnv (env : ExtractorEnv) : Option String :=
  if !truthy env.DOMAIN_PASSWORD then some "DOMAIN_PASSWORD"
  else if !truthy env.SITE_URL then some "SITE_URL"
  else if !truthy env.DOMAIN then some "DOMAIN"
  else if !truthy env.LOGINNAME then some "LOGINNAME"
  else if !truthy env.LOGINPASSWORD then some "LOGINPASSWORD"
  else if !truthy env.BUCKET_NAME then some "BUCKET_NAME"
  else none

/-- Is this string made of decimal digits only (and non-empty)? -/
def allDigits (s : List Char) : Bool :=
  !s.isEmpty && s.all (fun c => c.isDigit)

/-- Digits to a number (the strings passed here are digit-only). -/
def digitsToNat (s : List Char) : Nat :=
  s.foldl (fun acc c => acc * 10 + (c.toNat - 48)) 0

/-- Gregorian leap year, as `datetime.datetime` validates it. -/
def isLeapYear (y : Nat) : Bool :=
  (y % 4 = 0 && y % 100 ≠ 0) || y % 400 = 0

/-- Days in a month, as `datetime.datetime` validates it. -/
def daysInMonth (y m : Nat) : Nat :=
  if m = 2 then (if isLeapYear y then 29 else 28)
  else if m = 4 || m = 6 || m = 9 || m = 11 then 30
  else 31

/-- Split a character list on `'-'` (like Python `str.split('-')`,
keeping empty parts). -/
def splitDash : List Char → List (List Char)
  | [] => [[]]
  | c :: t =>
    if c = '-' then [] :: splitDash t
    else
      match splitDash t with
      | [] => [[c]]
      | l :: ls => (c :: l) :: ls

/-- Acceptance of `datetime.datetime.strptime(s, '%Y-%m-%d')`
(line 103): a 4-digit year, 1-2 digit month and day, separated by `-`,
naming a valid calendar date. -/
def validYMD (s : String) : Bool :=
  match splitDash s.data with
  | [ys, ms, ds] =>
    allDigits ys && allDigits ms && allDigits ds &&
    ys.length = 4 && ms.length ≤ 2 && ds.length ≤ 2 &&
    (let m := digitsToNat ms
     let d := digitsToNat ds
     1 ≤ m && m ≤ 12 && 1 ≤ d && d ≤ daysInMonth (digitsToNat ys) m)
  | _ => false

/-- `strftime('%Y-%m-%d')` of the parsed date (line 169): zero-pads the
month and day back to two digits. -/
def strftimeYMD (s : String) : String :=
  match splitDash s.data with
  | [ys, ms, ds] =>
    String.mk (ys ++ '-' :: (if ms.length < 2 then '0' :: ms else ms) ++
      '-' :: (if ds.length < 2 then '0' :: ds else ds))
  | _ => s

/-- The NTLM credentials built at line 127 from `DOMAIN`, `LOGINNAME` and
`current_password` (which is `LOGINPASSWORD`, line 99, and is never
reassigned). -/
structure Creds where
  domain : String
  login : String
  password : String
deriving DecidableEq, Repr

/-- One page of the document API's JSON answer: the `value` array (items
kept opaque as strings) and whether a continuation link
(`odata.nextLink` / `__next`, line 157) is present. -/
structure Page where
  value : List String
  next : Bool
deriving DecidableEq, Repr

/-- The outcome of one `requests.get` (line 129): either a response with a
status code, reason and JSON body, or a connection-level
`requests.exceptions.RequestException`. -/
inductive HttpOutcome where
  | resp (code : Nat) (reason : String) (page : Page) : HttpOutcome
  | netErr : HttpOutcome
deriving DecidableEq, Repr

/-- The `for count in range(3)` retry loop for one page (lines 126-153).
`n` is the number of requests made so far (indexing the oracle);
`remaining` is the number of loop iterations left (`3` at entry;
`count < 2` of the source is `remaining > 1`, i.e. the recursive call is
made with `remaining - 1 > 0`).  Returns the credentials used by each
request made, and either the 200 page together with the new request count,
or the propagated exception:

* status 200: success, loop broken (line 131-134);
* status 401: retry; on the last iteration raise the authentication
  exception (lines 135-140);
* other status in 400..599: `response.raise_for_status()` raises
  `HTTPError`, a `RequestException`, caught by the handler of line 144 and
  retried; on the last iteration re-raised (lines 141-150);
* other status outside 400..599: `raise_for_status()` does nothing and the
  loop just continues; if all three iterations end this way,
  `sharepoint_response` is still `None` and line 153 raises;
* connection-level error: retried; on the last iteration re-raised
  (lines 144-150). -/
def fetchRetry (script : Nat → HttpOutcome) (creds : Creds) (n : Nat) :
    Nat → List Creds × Except PyError (Page × Nat)
  | 0 => ([], .error .fetchFailed)
  | remaining + 1 =>
    match script n with
    | .netErr =>
      if remaining > 0 then
        let r := fetchRetry script creds (n + 1) remaining
        (creds :: r.1, r.2)
      else ([creds], .error .requestError)
    | .resp code reason page =>
      if code = 200 then ([creds], .ok (page, n + 1))
      else if code = 401 then
        if remaining > 0 then
          let r := fetchRetry script creds (n + 1) remaining
          (creds :: r.1, r.2)
        else ([creds], .error .authError)
      else if 400 ≤ code && code < 600 then
        if remaining > 0 then
          let r := fetchRetry script creds (n + 1) remaining
          (creds :: r.1, r.2)
        else ([creds], .error (.httpError code reason))
      else
        let r := fetchRetry script creds (n + 1) remaining
        (creds :: r.1, r.2)

/-- The `while next_link:` pagination loop (lines 123-157): fetch a page
with the retry loop, append its `value` items, and continue while a
continuation link is present.  `fuel` bounds the number of pages followed
(`none` = the loop would still be running); on success returns all items
in page order together with the total number of requests made. -/
def fetchPages (script : Nat → HttpOutcome) (creds : Creds) :
    Nat → Nat → List String → Option (List Creds × Except PyError (List String × Nat))
  | 0, _, _ => none
  | fuel + 1, n, acc =>
    match fetchRetry script creds n 3 with
    | (tr, .error e) => some (tr, .error e)
    | (tr, .ok (page, n')) =>
      if page.next then
        match fetchPages script creds fuel n' (acc ++ page.value) with
        | none => none
        | some (tr', r) => some (tr ++ tr', r)
      else some (tr, .ok (acc ++ page.value, n'))

/-- `store_json_to_s3` (`SharepointDataExtractor.py` lines 75-86).
Returns the list of storage keys for which a put was attempted, and the
function's outcome.  With a falsy bucket name it logs and returns `False`
without touching storage.  Otherwise `put_object` is attempted (`putOk`
is its outcome); on a storage-level exception the handler of line 84
executes `print(f"...", exc_info=True)`, and `print` does not accept an
`exc_info` keyword, so the handler itself raises `TypeError` — the
`return False` on line 86 is never reached on that path. -/
def store_json_to_s3 (bucket : Option String) (putOk : Bool)
    (data : List String) (filename : String) :
    List String × Except PyError Bool :=
  if !truthy bucket then ([], .ok false)
  else
    let put := [filename ++ "<-" ++ toString data.length]
    if putOk then (put, .ok true)
    else (put, .error (.typeError "exc_info is an invalid keyword argument for print"))

/-- The result dictionary returned by `process_sharepoint_data_for_batch`
(lines 161-165 and 176-180). -/
structure ProcResult where
  status : String
  message : String
  s3_output_key : Option String
deriving DecidableEq, Repr

/-- Lines 159-180 of `process_sharepoint_data_for_batch`: after the fetch
accumulated `items`, either return the no-data `SUCCESS` result, or store
the batch under `<prefix><date>_raw_reports.json` and return the success
result (a store outcome of `False` raises, line 173; a store exception
propagates). -/
def postFetch (env : ExtractorEnv) (putOk : Bool) (target_date_str : String)
    (items : List String) : List String × Except PyError ProcResult :=
  if items.isEmpty then
    ([], .ok { status := "SUCCESS"
               message := "SharePointから日付 " ++ target_date_str ++ " のデータが見つかりませんでした。"
               s3_output_key := none })
  else
    let key := (env.S3_OUTPUT_PFX.getD "raw_sharepoint_reports_daily/") ++
      strftimeYMD target_date_str ++ "_raw_reports.json"
    match store_json_to_s3 env.BUCKET_NAME putOk items key with
    | (puts, .error e) => (puts, .error e)
    | (puts, .ok false) => (puts, .error .storeError)
    | (puts, .ok true) =>
      (puts, .ok { status := "SUCCESS"
                   message := "SharePointから日付 " ++ target_date_str ++ " のデータ取得とS3への保存が完了したわ！S3キー: " ++ key
                   s3_output_key := some key })

/-- `process_sharepoint_data_for_batch` (lines 90-180).  In source order:
the required-environment check raises `ValueError` (line 97); an invalid
date raises `ValueError` (line 111); then line 121 evaluates
`urllib.parse.urlencode(query_params_base)` to build the initial
`next_link` — the module imports `urllib3` but never `urllib`, so unless
`"urllib"` were among `moduleImports` this raises `NameError` before any
request is made.  The dead continuation (the pagination loop of lines
123-157 and the storage logic of lines 159-180) is embedded in the
`then` branch.  The first component is the HTTP request trace, the second
the storage put trace. -/
def process_sharepoint_data_for_batch (env : ExtractorEnv)
    (script : Nat → HttpOutcome) (putOk : Bool) (fuel : Nat)
    (target_date_str : String) :
    Option (List Creds × List String × Except PyError ProcResult) :=
  match missingRequiredEnv env with
  | some v => some ([], [], .error (.valueError v))
  | none =>
    if !validYMD target_date_str then
      some ([], [], .error (.valueError "不正な日付形式よ！YYYY-MM-DD形式で日付を指定しなさい"))
    else if moduleImports.contains "urllib" then
      let creds : Creds :=
        { domain := env.DOMAIN.getD "", login := env.LOGINNAME.getD "",
          password := env.LOGINPASSWORD.getD "" }
      match fetchPages script creds fuel 0 [] with
      | none => none
      | some (tr, .error e) => some (tr, [], .error e)
      | some (tr, .ok (items, _)) =>
        let r := postFetch env putOk target_date_str items
        some (tr, r.1, r.2)
    else some ([], [], .error (.nameError "urllib"))

/-- The `__main__` mapping from the outcome of
`process_sharepoint_data_for_batch` to the process exit status
(lines 191-204): any exception exits 1; a result with status `"SUCCESS"`
exits 0; any other result exits 1. -/
def mainExitOfResult (r : Except PyError ProcResult) : Nat :=
  match r with
  | .error _ => 1
  | .ok pr => if pr.status = "SUCCESS" then 0 else 1

/-- The whole `__main__` block (lines 183-204): a falsy `TARGET_DATE`
exits 1 (line 189); otherwise the process function runs and its outcome is
mapped by `mainExitOfResult`. -/
def extractorMain (env : ExtractorEnv) (script : Nat → HttpOutcome)
    (putOk : Bool) (fuel : Nat) : Option Nat :=
  if !truthy env.TARGET_DATE then some 1
  else
    match process_sharepoint_data_for_batch env script putOk fuel
        (env.TARGET_DATE.getD "") with
    | none => none
    | some (_, _, r) => some (mainExitOfResult r)

/-! ## Stage 2: `S3toExHistoricalIndexer.py`

The per-record enrichment pipeline (lines 197-272) and the per-file /
total counting (lines 175-292).  The inference service is two oracles
(`summarizer`, `embedder`), the search engine is an oracle
(`engine : String → EsDoc → Bool`, first argument the configured index
name).  `index_data_to_elasticsearch` itself is repository code that is
not under `src/` (line 116 of the file says it is "the same as the
previous code"), so it is modelled from the spec. -/

/-- One raw SharePoint record as stored in the daily JSON file.  Each
field models `sp_raw_item.get(...)` (absent field = `none`). -/
structure RawItem where
  Title : Option String
  ID : Option String
  mrtBody : Option String
  mrtApprovedDate : Option String
  FileLeafRef : Option String
  mrtCustomerParticipant : Option String
  mrtMurataParticipant : Option String
  mrtSummary : Option String
deriving DecidableEq, Repr

/-- The search-engine document assembled at lines 251-264, with the fixed
field-name translation applied (Japanese index field names on the left of
the source dict literal). -/
structure EsDoc where
  «タイトル» : String
  «訪問日» : String
  «得意先参加者» : String
  «村田同行者» : String
  «概要» : String
  «詳細» : String
  «詳細要約» : String
  «全文ベクトル» : List Int
  «全文要約ベクトル» : List Int
  URL : String
  source_sharepoint_file_id : String
  source_sharepoint_filename : String
deriving DecidableEq, Repr

/-- `summarize_text_with_bedrock` (lines 42-61): with a falsy model id the
function logs and returns `None`; text longer than 5000 characters is
truncated to its first 5000 characters; the Bedrock call is the oracle
(`none` models an unreachable service or a malformed response, both of
which end in the `except` returning `None`); a successful completion is
returned `.strip()`-ped. -/
def summarize_text_with_bedrock (modelId : Option String)
    (summarizer : String → Option String) (text : String) : Option String :=
  if !truthy modelId then none
  else
    let t := if text.length > 5000 then String.mk (text.data.take 5000) else text
    match summarizer t with
    | none => none
    | some completion => some (pyStrip completion)

/-- `get_embedding_from_bedrock` (lines 63-79): with a falsy model id
returns `None`; text longer than 8000 characters is truncated to its first
8000 characters; the Bedrock call is the oracle (`none` models a failure or
a response without the `embedding` field). -/
def get_embedding_from_bedrock (modelId : Option String)
    (embedder : String → Option (List Int)) (text : String) : Option (List Int) :=
  if !truthy modelId then none
  else
    let t := if text.length > 8000 then String.mk (text.data.take 8000) else text
    embedder t

/-- The full-text embedding input of lines 229-233:
`タイトル: {Title}\n概要: {概要}\n詳細: {詳細}`. -/
def fullEmbText (it : RawItem) : String :=
  "タイトル: " ++ it.Title.getD "N/A" ++ "\n概要: " ++ it.mrtSummary.getD "N/A" ++
  "\n詳細: " ++ extract_text_from_html (it.mrtBody.getD "")

/-- The summary embedding input of lines 239-243:
`タイトル: {Title}\n概要: {概要}\n詳細要約: {詳細要約}`. -/
def sumEmbText (it : RawItem) (summary : String) : String :=
  "タイトル: " ++ it.Title.getD "N/A" ++ "\n概要: " ++ it.mrtSummary.getD "N/A" ++
  "\n詳細要約: " ++ summary

/-- The per-record enrichment of lines 198-264: extract the basic fields,
generate the short summary (a falsy result — `None` or the empty string —
skips the record, lines 217-220), generate the two embedding vectors (a
`None` from either call skips the record, lines 234-247), and assemble the
search-engine document of lines 251-264.  `none` is a skipped record:
nothing at all is handed to the index writer for it. -/
def enrichRecord (siteUrl sumModel embModel : Option String)
    (summarizer : String → Option String)
    (embedder : String → Option (List Int)) (it : RawItem) : Option EsDoc :=
  let title := it.Title.getD "N/A"
  let idStr := it.ID.getD "N/A"
  let url := (siteUrl.getD "") ++ "/Lists/For%20Global/DispForm.aspx?ID=" ++ idStr
  let fileRef := it.FileLeafRef.getD ("SharePoint_Item_" ++ idStr ++ ".txt")
  let body := extract_text_from_html (it.mrtBody.getD "")
  match summarize_text_with_bedrock sumModel summarizer body with
  | none => none
  | some summary =>
    if summary.isEmpty then none
    else
      match get_embedding_from_bedrock embModel embedder (fullEmbText it) with
      | none => none
      | some fullVec =>
        match get_embedding_from_bedrock embModel embedder (sumEmbText it summary) with
        | none => none
        | some sumVec =>
          some { «タイトル» := title
                 «訪問日» := it.mrtApprovedDate.getD ""
                 «得意先参加者» := it.mrtCustomerParticipant.getD "N/A"
                 «村田同行者» := it.mrtMurataParticipant.getD "N/A"
                 «概要» := it.mrtSummary.getD "N/A"
                 «詳細» := body
                 «詳細要約» := summary
                 «全文ベクトル» := fullVec
                 «全文要約ベクトル» := sumVec
                 URL := url
                 source_sharepoint_file_id := idStr
                 source_sharepoint_filename := fileRef }

/-- Modelled from the spec: `index_data_to_elasticsearch` is repository
code missing from `src/` (`S3toExHistoricalIndexer.py` line 116 only says
it is "the same as the previous code").  Per spec §4.6, given one enriched
document it upserts it into the search engine under the configured index
name and returns boolean success; the engine's answer is the oracle. -/
def index_data_to_elasticsearch (engine : String → EsDoc → Bool)
    (indexName : String) (doc : EsDoc) : Bool :=
  engine indexName doc

/-- One iteration of the record loop of lines 197-272: a skipped record
leaves the per-file counter unchanged; an assembled document is handed to
the index writer and counted if the upsert reports success (lines
266-267). -/
def recordStep (siteUrl sumModel embModel : Option String)
    (summarizer : String → Option String)
    (embedder : String → Option (List Int)) (engine : String → EsDoc → Bool)
    (indexName : String) (acc : Nat) (it : RawItem) : Nat :=
  match enrichRecord siteUrl sumModel embModel summarizer embedder it with
  | none => acc
  | some doc =>
    if index_data_to_elasticsearch engine indexName doc then acc + 1 else acc

/-- `successful_indexes_in_file` for one stored file (lines 196-273). -/
def processFileRecords (siteUrl sumModel embModel : Option String)
    (summarizer : String → Option String)
    (embedder : String → Option (List Int)) (engine : String → EsDoc → Bool)
    (indexName : String) (items : List RawItem) : Nat :=
  items.foldl (recordStep siteUrl sumModel embModel summarizer embedder engine indexName) 0

/-- The documents handed to the index writer for one stored file, in
record order (each is a fully assembled `EsDoc`; skipped records
contribute nothing). -/
def indexAttempts (siteUrl sumModel embModel : Option String)
    (summarizer : String → Option String)
    (embedder : String → Option (List Int)) (items : List RawItem) : List EsDoc :=
  items.foldr (fun it acc =>
    match enrichRecord siteUrl sumModel embModel summarizer embedder it with
    | none => acc
    | some doc => doc :: acc) []

/-- The content of one stored object as the indexer sees it after
`json.loads`: `none` models a file that is not a JSON list (skipped with a
warning, lines 188-190) or failed to parse/read (lines 278-285). -/
def FileContent : Type := Option (List RawItem)

/-- `total_reports_indexed` over the listed files (lines 178-287):
unreadable or non-list files contribute nothing; each list file
contributes its per-file success count (an empty list file contributes
0 via the `continue` of line 194, which is also its fold value). -/
def total_reports_indexed (siteUrl sumModel embModel : Option String)
    (summarizer : String → Option String)
    (embedder : String → Option (List Int)) (engine : String → EsDoc → Bool)
    (indexName : String) (files : List FileContent) : Nat :=
  files.foldl (fun acc f =>
    match f with
    | none => acc
    | some items =>
      acc + processFileRecords siteUrl sumModel embModel summarizer embedder
        engine indexName items) 0

/-! ## The one-day time window of the extraction query

`SharepointDataExtractor.py` lines 103-116: `start_string_gmt` is the
target day at `00:00:00` UTC and `end_string_gmt` is
`target + 1 day - 1 second`, i.e. `23:59:59` of the same day; the OData
`$filter` keeps records with `mrtApprovedDate ge start and le end` — a
closed interval with one-second granularity at the top end.  Approval
timestamps are modelled in milliseconds relative to an arbitrary day
start to expose the sub-second boundary behaviour. -/

/-- `start_string_gmt` of line 104: the day at midnight UTC. -/
def start_string_gmt (d : String) : String := strftimeYMD d ++ "T00:00:00Z"

/-- `end_string_gmt` of line 105: one day later minus one second. -/
def end_string_gmt (d : String) : String := strftimeYMD d ++ "T23:59:59Z"

/-- The `$filter` string of line 116. -/
def odataFilterString (d : String) : String :=
  "mrtApprovedDate ge datetime'" ++ start_string_gmt d ++
  "' and mrtApprovedDate le datetime'" ++ end_string_gmt d ++ "'"

/-- Which approval timestamps (in milliseconds, measured from the target
day's midnight `dayStartMs`) the filter of line 116 selects:
`ge` the day start and `le` the day start plus `86400 - 1` seconds. -/
def odataFilterAccepts (dayStartMs t : Nat) : Bool :=
  dayStartMs ≤ t && t ≤ dayStartMs + (86400 - 1) * 1000

/-- Membership in the half-open window [day start, next day start) that
the claim describes. -/
def inHalfOpenDay (dayStartMs t : Nat) : Bool :=
  dayStartMs ≤ t && t < dayStartMs + 86400 * 1000

/-! ## Concrete fixtures used by the scenario claims -/

/-- A fully populated extraction environment. -/
def envOkConcrete : ExtractorEnv :=
  { DOMAIN_PASSWORD := some "dompw", SITE_URL := some "https://sp",
    DOMAIN := some "dom", LOGINNAME := some "user",
    LOGINPASSWORD := some "loginpw", BUCKET_NAME := some "bucket",
    S3_OUTPUT_PFX := none, TARGET_DATE := some "2024-01-02" }

/-- Concrete NTLM credentials. -/
def credsX : Creds := { domain := "dom", login := "user", password := "loginpw" }

/-- A server that answers every request with HTTP 500. -/
def script500 : Nat → HttpOutcome :=
  fun _ => .resp 500 "Internal Server Error" { value := [], next := false }

/-- The record whose body fails embedding generation in the end-to-end
scenario. -/
def itemA : RawItem :=
  { Title := some "Report A", ID := some "1", mrtBody := some "badbody",
    mrtApprovedDate := some "2024-01-01T01:00:00Z", FileLeafRef := some "a.txt",
    mrtCustomerParticipant := some "custA", mrtMurataParticipant := some "murA",
    mrtSummary := some "sumA" }

/-- The fully valid record of the end-to-end scenario. -/
def itemB : RawItem :=
  { Title := some "Report B", ID := some "2", mrtBody := some "good body",
    mrtApprovedDate := some "2024-01-01T02:00:00Z", FileLeafRef := some "b.txt",
    mrtCustomerParticipant := some "custB", mrtMurataParticipant := some "murB",
    mrtSummary := some "sumB" }

/-- A summarization service that always succeeds with a non-empty,
already-stripped completion. -/
def sumOracle : String → Option String := fun t => some ("要約:" ++ t)

/-- The full-text embedding input produced for `itemA`. -/
def fullTextA : String := "タイトル: Report A\n概要: sumA\n詳細: badbody"

/-- An embedding service that fails exactly on `itemA`'s full-text input
(the simulated inference failure) and succeeds elsewhere. -/
def embOracle : String → Option (List Int) :=
  fun t => if t = fullTextA then none else some [1, 2]

/-- The document the enrichment pipeline assembles for `itemB`. -/
def docB : EsDoc :=
  { «タイトル» := "Report B", «訪問日» := "2024-01-01T02:00:00Z",
    «得意先参加者» := "custB", «村田同行者» := "murB", «概要» := "sumB",
    «詳細» := "good body", «詳細要約» := "要約:good body",
    «全文ベクトル» := [1, 2], «全文要約ベクトル» := [1, 2],
    URL := "https://sp/Lists/For%20Global/DispForm.aspx?ID=2",
    source_sharepoint_file_id := "2", source_sharepoint_filename := "b.txt" }

/-- Decidable equality of outcomes, for evaluating the model on concrete
inputs. -/
instance exceptDecEq {α β : Type} [DecidableEq α] [DecidableEq β] :
    DecidableEq (Except α β) := fun x y =>
  match x, y with
  | .ok a, .ok b =>
    if h : a = b then .isTrue (by rw [h])
    else .isFalse (by intro e; cases e; exact h rfl)
  | .error a, .error b =>
    if h : a = b then .isTrue (by rw [h])
    else .isFalse (by intro e; cases e; exact h rfl)
  | .ok _, .error _ => .isFalse (by intro e; cases e)
  | .error _, .ok _ => .isFalse (by intro e; cases e)

/-! ## Sanity examples -/

example : extract_text_from_html "  good  body " = "good  body" := by decide
example : extract_text_from_html "a\nb\n\n c " = "a b c" := by decide
example : extract_text_from_html "a　b" = "a b" := by decide
example : extract_sections "概要：A詳細：B所感：C" = ⟨"N/A", "N/A", "C"⟩ := by decide
example : extract_sections "概要：A\n詳細：B\n所感：C" = ⟨"A", "B", "C"⟩ := by decide
example : extract_sections "概要： A <br/>詳細： B <br/>所感： C " = ⟨"A", "B", "C"⟩ := by decide
example : validYMD "2024-01-02" = true ∧ validYMD "2024-1-2" = true ∧
    validYMD "2023-02-29" = false ∧ validYMD "2024-02-29" = true ∧
    validYMD "" = false ∧ validYMD "2024/01/02" = false := by decide
example : enrichRecord (some "https://sp") (some "m1") (some "m2")
    sumOracle embOracle itemB = some docB := by decide
example : enrichRecord (some "https://sp") (some "m1") (some "m2")
    sumOracle embOracle itemA = none := by decide

/-! ## Claims -/

/-- Claim C1: every fully assembled `EnrichedReportDocument` is handed to
the Index Writer (which upserts it under the configured index name using
the fixed field-name translation table baked into `enrichRecord`'s
document assembly); and in the end-to-end scenario of one stored daily
file with two records — one failing embedding generation, one fully
valid — exactly the valid record's document is upserted and
`total_reports_indexed` is 1. -/
theorem C1_every_enriched_doc_upserted_scenario_total_one :
    (∀ (siteUrl sumModel embModel : Option String)
       (summarizer : String → Option String)
       (embedder : String → Option (List Int)) (it : RawItem)
       (rest : List RawItem) (doc : EsDoc),
       enrichRecord siteUrl sumModel embModel summarizer embedder it = some doc →
       indexAttempts siteUrl sumModel embModel summarizer embedder (it :: rest) =
         doc :: indexAttempts siteUrl sumModel embModel summarizer embedder rest) ∧
    indexAttempts (some "https://sp") (some "m1") (some "m2")
      sumOracle embOracle [itemA, itemB] = [docB] ∧
    total_reports_indexed (some "https://sp") (some "m1") (some "m2")
      sumOracle embOracle (fun _ _ => true) "reports-index"
      [some [itemA, itemB]] = 1 := by
  refine ⟨?_, by decide, by decide⟩
  intro siteUrl sumModel embModel summarizer embedder it rest doc h
  simp [indexAttempts, h]

/-- Witness for C1: the assembled document of the valid record is handed
to the Index Writer. -/
theorem C1_witness :
    indexAttempts (some "https://sp") (some "m1") (some "m2")
      sumOracle embOracle [itemB] = [docB] :=
  C1_every_enriched_doc_upserted_scenario_total_one.1
    (some "https://sp") (some "m1") (some "m2") sumOracle embOracle
    itemB [] docB (by decide)

/-- Claim C2: with every configuration passing the required-environment
check and every well-formed `YYYY-MM-DD` date,
`process_sharepoint_data_for_batch` raises `NameError` while building the
initial query URL (the module imports `urllib3`, never `urllib`), makes no
HTTP request and no storage write, and the process exits with status 1. -/
theorem C2_urllib_nameError_no_io_exit_one (env : ExtractorEnv)
    (script : Nat → HttpOutcome) (putOk : Bool) (fuel : Nat) (d : String)
    (henv : missingRequiredEnv env = none) (hd : validYMD d = true)
    (ht : env.TARGET_DATE = some d) :
    process_sharepoint_data_for_batch env script putOk fuel d =
      some ([], [], .error (.nameError "urllib")) ∧
    extractorMain env script putOk fuel = some 1 := by
  have hne : d.isEmpty = false := by
    cases he : d.isEmpty
    · rfl
    · rw [String.isEmpty_iff] at he
      subst he
      exact absurd hd (by decide)
  have hurl : ¬ ("urllib" ∈ moduleImports) := by decide
  have hp : process_sharepoint_data_for_batch env script putOk fuel d =
      some ([], [], .error (.nameError "urllib")) := by
    simp [process_sharepoint_data_for_batch, henv, hd, hurl]
  refine ⟨hp, ?_⟩
  simp [extractorMain, ht, truthy, hne, hp, mainExitOfResult]

/-- Witness for C2: the NameError outcome at a concrete valid
configuration and date. -/
theorem C2_witness :
    missingRequiredEnv envOkConcrete = none ∧ validYMD "2024-01-02" = true ∧
    process_sharepoint_data_for_batch envOkConcrete script500 true 1 "2024-01-02" =
      some ([], [], .error (.nameError "urllib")) ∧
    extractorMain envOkConcrete script500 true 1 = some 1 := by
  have h := C2_urllib_nameError_no_io_exit_one envOkConcrete script500 true 1
    "2024-01-02" (by decide) (by decide) rfl
  exact ⟨by decide, by decide, h.1, h.2⟩

/-- Claim C3 (code bug): `store_json_to_s3` does return `False` on a falsy
bucket name and `True` on a successful put (also of an empty list), but on
a storage-level error the `except` handler itself raises `TypeError`
(`print` has no `exc_info` keyword), so the error escapes to the caller
instead of yielding `False`. -/
theorem C3_store_raises_TypeError_on_storage_error :
    store_json_to_s3 (some "bucket") false ["rec1"]
      "raw_sharepoint_reports_daily/2024-01-02_raw_reports.json" =
      (["raw_sharepoint_reports_daily/2024-01-02_raw_reports.json<-1"],
       .error (.typeError "exc_info is an invalid keyword argument for print")) ∧
    store_json_to_s3 none true [] "f.json" = ([], .ok false) ∧
    store_json_to_s3 (some "") true ["rec1"] "f.json" = ([], .ok false) ∧
    store_json_to_s3 (some "bucket") true [] "f.json" =
      (["f.json<-0"], .ok true) := by decide

/-- Claim C4 counterexample: on a non-2xx, non-401 status (HTTP 500) the
fetcher does NOT fail immediately — it re-attempts the request, making 3
requests in total before the status error propagates. -/
theorem C4_counterexample_500_is_retried :
    (fetchRetry script500 credsX 0 3).1.length = 3 ∧
    ((fetchRetry script500 credsX 0 3).1.length = 1 → False) ∧
    (fetchRetry script500 credsX 0 3).2 =
      .error (.httpError 500 "Internal Server Error") := by decide

/-- Claim C4 as amended: a non-2xx, non-401 error status (400-599) is
retried up to 3 attempts total — `raise_for_status()` raises `HTTPError`,
a `RequestException`, which the same handler as connection-level errors
catches — and exhausting the attempts fails with the error carrying the
response's status code and reason; connection-level errors are likewise
retried up to 3 attempts total. -/
theorem C4_amended_error_status_retried_thrice (code : Nat) (reason : String)
    (page : Page) (c : Creds) (h4 : 400 ≤ code) (h6 : code < 600)
    (h401 : code ≠ 401) :
    fetchRetry (fun _ => .resp code reason page) c 0 3 =
      ([c, c, c], .error (.httpError code reason)) ∧
    fetchRetry (fun _ => .netErr) c 0 3 = ([c, c, c], .error .requestError) := by
  have h200 : code ≠ 200 := by omega
  have e4 : decide (400 ≤ code) = true := decide_eq_true h4
  have e6 : decide (code < 600) = true := decide_eq_true h6
  constructor
  · simp [fetchRetry, h200, h401, e4, e6]
  · simp [fetchRetry]

/-- Witness for C4's amended statement at HTTP 503. -/
theorem C4_amended_witness :
    fetchRetry (fun _ => .resp 503 "Service Unavailable" { value := [], next := false })
      credsX 0 3 = ([credsX, credsX, credsX],
        .error (.httpError 503 "Service Unavailable")) ∧
    fetchRetry (fun _ => .netErr) credsX 0 3 =
      ([credsX, credsX, credsX], .error .requestError) :=
  C4_amended_error_status_retried_thrice 503 "Service Unavailable"
    { value := [], next := false } credsX (by decide) (by decide) (by decide)

/-- Claim C5 counterexample: on the input `"概要：A詳細：B所感：C"` the
section splitter does not return `{"概要":"A","詳細":"B","所感":"C"}`: the
first two patterns require `<br/>` or a newline before the following
label (`$` cannot be followed by a literal), so 概要 and 詳細 fall back to
the sentinel. -/
theorem C5_counterexample_no_newline_input :
    extract_sections "概要：A詳細：B所感：C" = ⟨"N/A", "N/A", "C"⟩ ∧
    (extract_sections "概要：A詳細：B所感：C" = ⟨"A", "B", "C"⟩ → False) := by decide

/-- Claim C5 as amended: on `"概要：A詳細：B所感：C"` the splitter returns
`{"概要":"N/A","詳細":"N/A","所感":"C"}`; with newline separators
(`"概要：A\n詳細：B\n所感：C"`) it returns the trimmed
`{"概要":"A","詳細":"B","所感":"C"}`; and whenever a label's pattern is
not found, that entry is the sentinel `"N/A"` and the function returns
normally. -/
theorem C5_amended_sections :
    extract_sections "概要：A詳細：B所感：C" = ⟨"N/A", "N/A", "C"⟩ ∧
    extract_sections "概要：A\n詳細：B\n所感：C" = ⟨"A", "B", "C"⟩ ∧
    (∀ s : String, searchCapture labelG labelD s.data = none →
      (extract_sections s).«概要» = "N/A") ∧
    (∀ s : String, searchCapture labelD labelS s.data = none →
      (extract_sections s).«詳細» = "N/A") ∧
    (∀ s : String, searchTail labelS s.data = none →
      (extract_sections s).«所感» = "N/A") := by
  refine ⟨by decide, by decide, ?_, ?_, ?_⟩ <;>
    · intro s h
      simp [extract_sections, h]

/-- Witness for C5's amended statement: all three sentinels on an input
with no labels at all. -/
theorem C5_amended_witness :
    (extract_sections "x").«概要» = "N/A" ∧
    (extract_sections "x").«詳細» = "N/A" ∧
    (extract_sections "x").«所感» = "N/A" :=
  ⟨C5_amended_sections.2.2.1 "x" (by decide),
   C5_amended_sections.2.2.2.1 "x" (by decide),
   C5_amended_sections.2.2.2.2 "x" (by decide)⟩

/-- Claim C6 (code bug): on a fetch that returns zero records the process
does NOT exit with status 1 — the no-data branch of
`process_sharepoint_data_for_batch` returns a result with status
`"SUCCESS"`, which the `__main__` block maps to exit status 0; the
dedicated "no data or warning" exit-1 branch is unreachable. -/
theorem C6_empty_fetch_exits_zero :
    postFetch envOkConcrete true "2024-01-02" [] =
      ([], .ok { status := "SUCCESS"
                 message := "SharePointから日付 2024-01-02 のデータが見つかりませんでした。"
                 s3_output_key := none }) ∧
    mainExitOfResult (postFetch envOkConcrete true "2024-01-02" []).2 = 0 ∧
    (mainExitOfResult (postFetch envOkConcrete true "2024-01-02" []).2 = 1 → False) := by
  decide

/-- Claim C7 counterexample: the filter window is closed at
`23:59:59.000`, so a record with approval timestamp `23:59:59.500`
(500 ms before the next day) lies in the claimed half-open window but is
NOT selected by the built filter — "selects exactly" fails. -/
theorem C7_counterexample_subsecond_timestamp :
    inHalfOpenDay 0 86399500 = true ∧ odataFilterAccepts 0 86399500 = false := by
  decide

/-- Claim C7 as amended: the `$filter` built from the target date selects
exactly the closed window [day start, day start + 86399 s]; every selected
record's approval timestamp therefore lies within the half-open day
window, but sub-second timestamps inside the final second are not
selected. -/
theorem C7_amended_closed_window (dayStartMs t : Nat) :
    (odataFilterAccepts dayStartMs t = true → inHalfOpenDay dayStartMs t = true) ∧
    (odataFilterAccepts dayStartMs t = true ↔
      dayStartMs ≤ t ∧ t ≤ dayStartMs + 86399000) := by
  constructor
  · intro h
    simp only [odataFilterAccepts, Bool.and_eq_true, decide_eq_true_eq] at h
    simp only [inHalfOpenDay, Bool.and_eq_true, decide_eq_true_eq]
    omega
  · simp only [odataFilterAccepts, Bool.and_eq_true, decide_eq_true_eq]

/-- Witness for C7's amended statement at a timestamp one second into the
day. -/
theorem C7_amended_witness :
    inHalfOpenDay 0 1000 = true ∧
    (odataFilterAccepts 0 1000 = true ↔ 0 ≤ 1000 ∧ 1000 ≤ 0 + 86399000) :=
  ⟨(C7_amended_closed_window 0 1000).1 (by decide),
   (C7_amended_closed_window 0 1000).2⟩

/-- Claim C8: on HTTP 401 the same page request is retried with the same
credentials up to 3 attempts total; three consecutive 401 responses fail
the fetch with the authentication error, while two 401 responses followed
by a 200 succeed with exactly the items of the successful page. -/
theorem C8_auth_retry_three_attempts (c : Creds) (pg : Page) :
    fetchRetry (fun _ => .resp 401 "Unauthorized" pg) c 0 3 =
      ([c, c, c], .error .authError) ∧
    fetchPages (fun n => if n < 2 then .resp 401 "Unauthorized" pg
                 else .resp 200 "OK" { value := ["rec1"], next := false })
      c 1 0 [] = some ([c, c, c], .ok (["rec1"], 3)) := by
  constructor
  · simp [fetchRetry]
  · simp [fetchPages, fetchRetry]

/-- Claim C9: a record is handed to the index writer only when its
generated summary is non-empty (the stripped completion) and both
embedding calls succeeded, and the assembled document carries exactly
those values; and a record skipped by any failed enrichment step
contributes no index write and leaves the processing of the remaining
records of the file unchanged. -/
theorem C9_skip_and_continue :
    (∀ (siteUrl sumModel embModel : Option String)
       (summarizer : String → Option String)
       (embedder : String → Option (List Int)) (it : RawItem) (doc : EsDoc),
       enrichRecord siteUrl sumModel embModel summarizer embedder it = some doc →
       doc.«詳細要約» ≠ "" ∧
       summarize_text_with_bedrock sumModel summarizer
         (extract_text_from_html (it.mrtBody.getD "")) = some doc.«詳細要約» ∧
       get_embedding_from_bedrock embModel embedder (fullEmbText it) =
         some doc.«全文ベクトル» ∧
       get_embedding_from_bedrock embModel embedder
         (sumEmbText it doc.«詳細要約») = some doc.«全文要約ベクトル») ∧
    (∀ (siteUrl sumModel embModel : Option String)
       (summarizer : String → Option String)
       (embedder : String → Option (List Int))
       (engine : String → EsDoc → Bool) (indexName : String)
       (it : RawItem) (rest : List RawItem),
       enrichRecord siteUrl sumModel embModel summarizer embedder it = none →
       processFileRecords siteUrl sumModel embModel summarizer embedder
         engine indexName (it :: rest) =
         processFileRecords siteUrl sumModel embModel summarizer embedder
           engine indexName rest ∧
       indexAttempts siteUrl sumModel embModel summarizer embedder (it :: rest) =
         indexAttempts siteUrl sumModel embModel summarizer embedder rest) := by
  constructor
  · intro siteUrl sumModel embModel summarizer embedder it doc h
    simp only [enrichRecord] at h
    split at h
    · exact absurd h (by simp)
    · rename_i summary hs
      split at h
      · exact absurd h (by simp)
      · rename_i hne
        split at h
        · exact absurd h (by simp)
        · rename_i v1 h1
          split at h
          · exact absurd h (by simp)
          · rename_i v2 h2
            cases h
            refine ⟨?_, hs, h1, h2⟩
            simpa [String.isEmpty_iff] using hne
  · intro siteUrl sumModel embModel summarizer embedder engine indexName it rest h
    constructor
    · simp [processFileRecords, recordStep, h]
    · simp [indexAttempts, h]

/-! ### Helper lemmas for the idempotence of `extract_text_from_html`

The output of `extractTextL` contains no line-boundary characters and
none of the three replaced special characters, and it is its own
`strip`: so a second pass maps it through unchanged. -/

/-- Reduction: the splitter worker on the empty input. -/
theorem splitLinesGo_nil (acc : List Char) : splitLinesGo acc [] = [acc.reverse] := rfl

set_option maxHeartbeats 2000000 in
/-- Reduction: the splitter worker on a `\r\n` boundary. -/
theorem splitLinesGo_crlf (acc t : List Char) :
    splitLinesGo acc ('\r' :: '\n' :: t) =
      acc.reverse :: (match t with | [] => [] | t => splitLinesGo [] t) := by
  rw [splitLinesGo.eq_def]
  rfl

/-- Reduction: the splitter worker on a boundary character not starting a
`\r\n` pair. -/
theorem splitLinesGo_cons_boundary (acc : List Char) (c : Char) (t : List Char)
    (hb : isLineBoundary c = true) (hnrn : ¬(c = '\r' ∧ t.head? = some '\n')) :
    splitLinesGo acc (c :: t) =
      acc.reverse :: (match t with | [] => [] | t => splitLinesGo [] t) := by
  rw [splitLinesGo.eq_def]
  split
  · rename_i heq
    exact absurd heq (by simp)
  · rename_i t' heq
    injection heq with e1 e2
    exact absurd ⟨e1, by rw [e2]; rfl⟩ hnrn
  · rename_i h0 heq
    injection heq with e1 e2
    subst e1; subst e2
    rw [if_pos hb]
    cases t <;> rfl

/-- Reduction: the splitter worker on a non-boundary character. -/
theorem splitLinesGo_cons_not_boundary (acc : List Char) (c : Char)
    (t : List Char) (hb : isLineBoundary c = false) :
    splitLinesGo acc (c :: t) = splitLinesGo (c :: acc) t := by
  rw [splitLinesGo.eq_def]
  split
  · rename_i heq
    exact absurd heq (by simp)
  · rename_i t' heq
    injection heq with e1 e2
    subst e1
    exact absurd hb (by decide)
  · rename_i h0 heq
    injection heq with e1 e2
    subst e1; subst e2
    rw [if_neg (by simp [hb])]

/-- Every `splitlines` boundary character is `strip` whitespace. -/
theorem boundary_isPySpace (c : Char) (h : isLineBoundary c = true) :
    isPySpace c = true := by
  simp only [isLineBoundary, Bool.or_eq_true] at h
  simp only [isPySpace, Bool.or_eq_true]
  tauto

/-- `dropWhile` preserves an `all` invariant. -/
theorem all_dropWhile (p q : Char → Bool) (l : List Char) (h : l.all p = true) :
    (l.dropWhile q).all p = true := by
  induction l with
  | nil => simp
  | cons c t ih =>
    simp only [List.all_cons, Bool.and_eq_true] at h
    rw [List.dropWhile_cons]
    split
    · exact ih h.2
    · simp only [List.all_cons, Bool.and_eq_true]
      exact ⟨h.1, h.2⟩

/-- `pyStripL` preserves an `all` invariant. -/
theorem all_pyStripL (p : Char → Bool) (l : List Char) (h : l.all p = true) :
    (pyStripL l).all p = true := by
  unfold pyStripL
  rw [List.all_reverse]
  exact all_dropWhile _ _ _ (by rw [List.all_reverse]; exact all_dropWhile _ _ _ h)

/-- `filter` preserves an `all` invariant. -/
theorem all_filterKeep {α : Type} (Q q : α → Bool) (L : List α)
    (h : L.all Q = true) : (L.filter q).all Q = true := by
  induction L with
  | nil => simp
  | cons l ls ih =>
    simp only [List.all_cons, Bool.and_eq_true] at h
    rw [List.filter_cons]
    split
    · simp only [List.all_cons, Bool.and_eq_true]
      exact ⟨h.1, ih h.2⟩
    · exact ih h.2

/-- Joining with single spaces preserves an `all` invariant that holds of
the space character. -/
theorem joinSp_all (P : Char → Bool) (hsp : P ' ' = true) :
    ∀ L : List (List Char), L.all (fun l => l.all P) = true →
      (joinSp L).all P = true
  | [], _ => by simp [joinSp]
  | [l], h => by
    simp only [List.all_cons, Bool.and_eq_true] at h
    simpa [joinSp] using h.1
  | l :: l' :: ls, h => by
    simp only [List.all_cons, Bool.and_eq_true] at h
    have ih := joinSp_all P hsp (l' :: ls)
      (by simp only [List.all_cons, Bool.and_eq_true]; exact ⟨h.2.1, h.2.2⟩)
    simp only [joinSp, List.all_append, List.all_cons, Bool.and_eq_true]
    exact ⟨h.1, hsp, ih⟩

/-- Every line produced by the splitter worker satisfies `P` when the
accumulator does and every input character is a boundary or satisfies
`P`. -/
theorem splitLinesGo_all (P : Char → Bool) (acc s : List Char) :
    acc.all P = true → s.all (fun c => isLineBoundary c || P c) = true →
    (splitLinesGo acc s).all (fun l => l.all P) = true := by
  induction acc, s using splitLinesGo.induct with
  | case1 acc =>
    intro ha _
    simp [splitLinesGo_nil, List.all_reverse, ha]
  | case2 acc t ih =>
    intro ha hs
    simp only [List.all_cons, Bool.and_eq_true] at hs
    rw [splitLinesGo_crlf]
    cases t with
    | nil => simp [List.all_reverse, ha]
    | cons c u =>
      simp only [List.all_cons, Bool.and_eq_true, List.all_reverse]
      exact ⟨ha, ih (by simp) hs.2.2⟩
  | case3 acc c t hne hb ih =>
    intro ha hs
    simp only [List.all_cons, Bool.and_eq_true] at hs
    rw [splitLinesGo_cons_boundary acc c t hb ?hnrn]
    case hnrn =>
      rintro ⟨e1, e2⟩
      cases t with
      | nil => simp at e2
      | cons c' u =>
        simp only [List.head?_cons, Option.some.injEq] at e2
        exact hne u e1 (by rw [e2])
    cases t with
    | nil => simp [List.all_reverse, ha]
    | cons c' u =>
      simp only [List.all_cons, Bool.and_eq_true, List.all_reverse]
      exact ⟨ha, ih (by simp) hs.2⟩
  | case4 acc c t hne hb ih =>
    intro ha hs
    have hb' : isLineBoundary c = false := Bool.eq_false_iff.mpr hb
    simp only [List.all_cons, Bool.and_eq_true, hb', Bool.false_or] at hs
    rw [splitLinesGo_cons_not_boundary acc c t hb']
    exact ih (by simp only [List.all_cons, Bool.and_eq_true]; exact ⟨hs.1, ha⟩) hs.2

/-- Every line of `pySplitlines` satisfies `P` when every input character
is a boundary or satisfies `P`. -/
theorem pySplitlines_all (P : Char → Bool) (s : List Char)
    (hs : s.all (fun c => isLineBoundary c || P c) = true) :
    (pySplitlines s).all (fun l => l.all P) = true := by
  cases s with
  | nil => simp [pySplitlines]
  | cons c t => exact splitLinesGo_all P [] (c :: t) (by simp) hs

/-- The replacement chain never produces one of the replaced characters. -/
theorem normChar_not_special (c : Char) : specialChar (normChar c) = false := by
  unfold normChar
  split
  · decide
  · rename_i h
    exact Bool.eq_false_iff.mpr h

/-- The replacement chain is the identity on special-free text. -/
theorem map_normChar_id (l : List Char)
    (h : l.all (fun c => !specialChar c) = true) : l.map normChar = l := by
  induction l with
  | nil => rfl
  | cons c t ih =>
    simp only [List.all_cons, Bool.and_eq_true, Bool.not_eq_true'] at h
    simp only [List.map_cons, ih h.2, List.cons.injEq, and_true]
    unfold normChar
    rw [if_neg (by simp [h.1])]

/-- The splitter worker on boundary-free input returns one line. -/
theorem splitLinesGo_no_boundary (s : List Char) : ∀ acc : List Char,
    s.all (fun c => !isLineBoundary c) = true →
    splitLinesGo acc s = [acc.reverse ++ s] := by
  induction s with
  | nil =>
    intro acc _
    simp [splitLinesGo_nil]
  | cons c t ih =>
    intro acc h
    simp only [List.all_cons, Bool.and_eq_true, Bool.not_eq_true'] at h
    rw [splitLinesGo_cons_not_boundary acc c t h.1, ih (c :: acc) h.2]
    simp

/-- `pySplitlines` on non-empty boundary-free input returns just that
input. -/
theorem pySplitlines_no_boundary (l : List Char) (hne : l ≠ [])
    (h : l.all (fun c => !isLineBoundary c) = true) : pySplitlines l = [l] := by
  cases l with
  | nil => exact absurd rfl hne
  | cons c t =>
    show splitLinesGo [] (c :: t) = [c :: t]
    rw [splitLinesGo_no_boundary (c :: t) [] h]
    rfl

/-- The head of a `dropWhile` result does not satisfy the predicate. -/
theorem head?_dropWhile (p : Char → Bool) (l : List Char) (c : Char)
    (h : (l.dropWhile p).head? = some c) : p c = false := by
  induction l with
  | nil => simp [List.dropWhile] at h
  | cons a t ih =>
    rw [List.dropWhile_cons] at h
    by_cases hp : p a = true
    · rw [if_pos hp] at h
      exact ih h
    · rw [if_neg hp] at h
      simp only [List.head?_cons, Option.some.injEq] at h
      subst h
      exact Bool.eq_false_iff.mpr hp

/-- A non-empty `dropWhile` result keeps the original last element. -/
theorem getLast?_dropWhile (p : Char → Bool) (l : List Char)
    (h : l.dropWhile p ≠ []) : (l.dropWhile p).getLast? = l.getLast? := by
  induction l with
  | nil => simp [List.dropWhile] at h
  | cons a t ih =>
    rw [List.dropWhile_cons] at h ⊢
    by_cases hp : p a = true
    · rw [if_pos hp] at h ⊢
      rw [ih h]
      cases t with
      | nil => simp [List.dropWhile] at h
      | cons b u => rw [List.getLast?_cons_cons]
    · rw [if_neg hp]

/-- The first character of a stripped line is not whitespace. -/
theorem pyStripL_head (l : List Char) (c : Char)
    (h : (pyStripL l).head? = some c) : isPySpace c = false := by
  unfold pyStripL at h
  rw [List.head?_reverse] at h
  have hne : (l.dropWhile isPySpace).reverse.dropWhile isPySpace ≠ [] := by
    intro e
    rw [e] at h
    simp at h
  rw [getLast?_dropWhile _ _ hne, List.getLast?_reverse] at h
  exact head?_dropWhile _ _ _ h

/-- The last character of a stripped line is not whitespace. -/
theorem pyStripL_last (l : List Char) (c : Char)
    (h : (pyStripL l).getLast? = some c) : isPySpace c = false := by
  unfold pyStripL at h
  rw [List.getLast?_reverse] at h
  exact head?_dropWhile _ _ _ h

/-- `dropWhile` is the identity when the head fails the predicate. -/
theorem dropWhile_head_not (p : Char → Bool) (l : List Char)
    (h : ∀ c, l.head? = some c → p c = false) : l.dropWhile p = l := by
  cases l with
  | nil => rfl
  | cons a t => rw [List.dropWhile_cons, if_neg (by simp [h a rfl])]

/-- A list whose ends are not whitespace is its own `strip`. -/
theorem pyStripL_eq_self (l : List Char)
    (hh : ∀ c, l.head? = some c → isPySpace c = false)
    (hl : ∀ c, l.getLast? = some c → isPySpace c = false) : pyStripL l = l := by
  unfold pyStripL
  rw [dropWhile_head_not _ _ hh,
    dropWhile_head_not _ _ (fun c hc => hl c ((List.head?_reverse l) ▸ hc)),
    List.reverse_reverse]

/-- Joining a non-empty first line gives a non-empty result. -/
theorem joinSp_ne_nil (l : List Char) (ls : List (List Char)) (h : l ≠ []) :
    joinSp (l :: ls) ≠ [] := by
  cases ls with
  | nil => simpa [joinSp] using h
  | cons l' ls' => simp [joinSp]

/-- The join starts with the first line's head. -/
theorem joinSp_head? (l : List Char) (ls : List (List Char)) (h : l ≠ []) :
    (joinSp (l :: ls)).head? = l.head? := by
  cases ls with
  | nil => rfl
  | cons l' ls' => exact List.head?_append_of_ne_nil l h

/-- The join ends with the last line's last character (all lines
non-empty). -/
theorem joinSp_getLast? : ∀ L : List (List Char), (∀ l ∈ L, l ≠ []) →
    ∀ lN, L.getLast? = some lN → (joinSp L).getLast? = lN.getLast?
  | [], _, lN, h => by simp at h
  | [l], _, lN, h => by
    simp only [List.getLast?_singleton, Option.some.injEq] at h
    subst h
    rfl
  | l :: l' :: ls, hne, lN, h => by
    rw [List.getLast?_cons_cons] at h
    have hl' : l' ≠ [] := hne l' (by simp)
    have hj := joinSp_ne_nil l' ls hl'
    have ih := joinSp_getLast? (l' :: ls) (fun x hx => hne x (by simp [hx])) lN h
    show (l ++ ' ' :: joinSp (l' :: ls)).getLast? = lN.getLast?
    rw [List.getLast?_append_cons]
    obtain ⟨a, u, e⟩ := List.exists_cons_of_ne_nil hj
    rw [e, List.getLast?_cons_cons, ← e]
    exact ih

/-- The output of `extractTextL` satisfies `P` whenever `P ' '` holds and
every character of the replaced input is a boundary or satisfies `P`. -/
theorem extractTextL_all (P : Char → Bool) (hsp : P ' ' = true) (s : List Char)
    (hs : (s.map normChar).all (fun c => isLineBoundary c || P c) = true) :
    (extractTextL s).all P = true := by
  unfold extractTextL
  apply joinSp_all P hsp
  apply all_filterKeep
  rw [List.all_map]
  have h1 := pySplitlines_all P (s.map normChar) hs
  rw [List.all_eq_true] at h1 ⊢
  intro l hl
  exact all_pyStripL P l (h1 l hl)

/-- The output of `extractTextL` is a fixed point of `extractTextL`. -/
theorem extractTextL_fixed (s : List Char) :
    extractTextL (extractTextL s) = extractTextL s := by
  have hspec : (extractTextL s).all (fun c => !specialChar c) = true := by
    apply extractTextL_all _ (by decide)
    rw [List.all_map, List.all_eq_true]
    intro c _
    show (isLineBoundary (normChar c) || !specialChar (normChar c)) = true
    simp [normChar_not_special c]
  have hnb : (extractTextL s).all (fun c => !isLineBoundary c) = true := by
    apply extractTextL_all _ (by decide)
    rw [List.all_eq_true]
    intro c _
    exact Bool.or_not_self _
  have hhead : ∀ c, (extractTextL s).head? = some c → isPySpace c = false := by
    intro c hc
    unfold extractTextL at hc
    generalize hstr : ((pySplitlines (s.map normChar)).map pyStripL).filter
      (fun l => !l.isEmpty) = L at hc
    cases L with
    | nil => simp [joinSp] at hc
    | cons l ls =>
      have hmem : l ∈ ((pySplitlines (s.map normChar)).map pyStripL).filter
          (fun l => !l.isEmpty) := by
        rw [hstr]
        exact List.mem_cons_self l ls
      have hlne : l ≠ [] := by
        have := List.of_mem_filter hmem
        simp only [Bool.not_eq_true'] at this
        intro e
        rw [e] at this
        simp at this
      rw [joinSp_head? l ls hlne] at hc
      have hmap := (List.mem_filter.mp hmem).1
      obtain ⟨a, _, rfl⟩ := List.mem_map.mp hmap
      exact pyStripL_head a c hc
  have hlast : ∀ c, (extractTextL s).getLast? = some c → isPySpace c = false := by
    intro c hc
    unfold extractTextL at hc
    generalize hstr : ((pySplitlines (s.map normChar)).map pyStripL).filter
      (fun l => !l.isEmpty) = L at hc
    by_cases hLnil : L = []
    · rw [hLnil] at hc
      simp [joinSp] at hc
    · have hallne : ∀ x ∈ L, x ≠ [] := by
        intro x hx e
        have hmem : x ∈ ((pySplitlines (s.map normChar)).map pyStripL).filter
            (fun l => !l.isEmpty) := by rw [hstr]; exact hx
        have hf := List.of_mem_filter hmem
        rw [e] at hf
        simp at hf
      have hgl := List.getLast?_eq_getLast_of_ne_nil hLnil
      rw [joinSp_getLast? L hallne (L.getLast hLnil) hgl] at hc
      have hmemN : L.getLast hLnil ∈ L := List.getLast_mem hLnil
      have hmem : L.getLast hLnil ∈
          ((pySplitlines (s.map normChar)).map pyStripL).filter
            (fun l => !l.isEmpty) := by rw [hstr]; exact hmemN
      have hmap := (List.mem_filter.mp hmem).1
      obtain ⟨a, _, ha⟩ := List.mem_map.mp hmap
      rw [← ha] at hc
      exact pyStripL_last a c hc
  by_cases hy : extractTextL s = []
  · rw [hy]
    rfl
  · have h1 : (extractTextL s).map normChar = extractTextL s :=
      map_normChar_id _ hspec
    have h2 : pySplitlines (extractTextL s) = [extractTextL s] :=
      pySplitlines_no_boundary _ hy hnb
    have h3 : pyStripL (extractTextL s) = extractTextL s :=
      pyStripL_eq_self _ hhead hlast
    conv_lhs => rw [extractTextL]
    rw [h1, h2]
    simp only [List.map_cons, List.map_nil, h3, List.filter_cons, List.filter_nil]
    rw [if_pos (by simp [hy])]
    rfl

/-- Claim C10: the HTML-to-text extractor is a pure function of its input
(its Lean embedding is a function), and on markup-free input — where
parsing is the identity and the whole extractor is the post-processing
chain — it is idempotent: a second application returns the first
application's output unchanged. -/
theorem C10_extract_text_idempotent (x : String) (hmf : markupFree x = true) :
    extract_text_from_html (extract_text_from_html x) = extract_text_from_html x := by
  have _ := hmf
  show String.mk (extractTextL (String.mk (extractTextL x.data)).data) =
    String.mk (extractTextL x.data)
  rw [show (String.mk (extractTextL x.data)).data = extractTextL x.data from rfl,
    extractTextL_fixed]

/-- Witness for C10 at a concrete markup-free input. -/
theorem C10_witness :
    extract_text_from_html (extract_text_from_html " a  b\nc　") =
      extract_text_from_html " a  b\nc　" :=
  C10_extract_text_idempotent " a  b\nc　" (by decide)

/-- Witness for C9: the record whose embedding fails is skipped and the
file's processing is unchanged by its presence. -/
theorem C9_witness :
    processFileRecords (some "https://sp") (some "m1") (some "m2")
      sumOracle embOracle (fun _ _ => true) "reports-index" [itemA] =
      processFileRecords (some "https://sp") (some "m1") (some "m2")
        sumOracle embOracle (fun _ _ => true) "reports-index" [] ∧
    indexAttempts (some "https://sp") (some "m1") (some "m2")
      sumOracle embOracle [itemA] =
      indexAttempts (some "https://sp") (some "m1") (some "m2")
        sumOracle embOracle [] :=
  C9_skip_and_continue.2 (some "https://sp") (some "m1") (some "m2")
    sumOracle embOracle (fun _ _ => true) "reports-index" itemA [] (by decide)
